import Mathlib

/-
Verification of the aggregation and formatting core of
`taiga-discord-standup.py`: a one-shot script that fetches work items from a
project-management API, groups them by status and assignee, computes
completion metrics, renders column-oriented board sections, and posts the
result as message payloads ("embeds") to a chat webhook.

The embedding below translates the pure data-shaping parts of the script:

* records are Python dicts; an optional nested-dict field such as
  `status_extra_info` or `assigned_to_extra_info` is modelled by `PyField`,
  which distinguishes a missing key, an explicit `None`, a non-dict value
  (with its Python truthiness), and a dict of string entries;
* Python dicts used as accumulators (status buckets, per-user buckets,
  status counts) are modelled as insertion-ordered association lists;
* Python text is modelled by `String`; slicing `s[:n]` is `truncate n`;
* Python float formatting with `%.0f` rounds to the nearest integer with
  ties to even; the percentage arithmetic of the script is modelled over ℚ
  (at the concrete values evaluated in the theorems below the script's binary
  floating-point products are exact, e.g. 5/8*100 = 62.5);
* code that can raise (attribute access on a non-dict value) returns
  `Except String`, carrying the exception name.

Line numbers in doc comments refer to `src/taiga-discord-standup.py`.
-/

namespace Standup

/-- Shape of an optional nested field of a fetched record (a Python dict
value): the key may be missing, hold `None`, hold a non-dict value (whose
Python truthiness is recorded), or hold a dict of string entries. An empty
dict is falsy in Python, which several code paths test before `isinstance`. -/
inductive PyField where
  | absent
  | null
  | other (truthy : Bool)
  | dict (entries : List (String × String))
deriving Repr, DecidableEq

/-- A user story record as consumed by the script (relevant keys only). -/
structure Story where
  id : Nat
  ref : String
  subject : Option String
  status_extra_info : PyField
  assigned_to_extra_info : PyField
  is_closed : Bool
deriving Repr, DecidableEq

/-- A task record as consumed by the script (relevant keys only). -/
structure Task where
  ref : String
  subject : Option String
  status_extra_info : PyField
  assigned_to_extra_info : PyField
  user_story_extra_info : Option (List (String × String))
  is_closed : Bool
  user_story : Option Nat
deriving Repr, DecidableEq

/-- A sprint (milestone) record. ISO-8601 date strings compare
lexicographically in the same order as the dates they denote, so a date
string is modelled by a positive `Nat` preserving that order; a missing
date is `none` (the script's sort key for a missing date is `''`, which
precedes every date string and is modelled by key `0`). -/
structure Sprint where
  name : String
  estimated_start : Option Nat
  estimated_finish : Option Nat
deriving Repr, DecidableEq

/-- One named value block (an embed field): lines 46-50, 260-264 etc. -/
structure Field where
  name : String
  value : String
  inline : Bool
deriving Repr, DecidableEq

/-- One message payload (a Discord embed); footer/thumbnail/timestamp are
presentation-only constants or wall-clock values and are not modelled. -/
structure Embed where
  title : String
  description : String
  color : Nat
  fields : List Field
deriving Repr, DecidableEq

/-! ### Record-field extraction (Status Classifier and assignee sentinels) -/

/-- Status extraction of `organize_tasks_by_status` (lines 186-190) and
`organize_stories_by_status` (lines 206-210): `rec.get('status_extra_info')`
followed by a truthiness and `isinstance(..., dict)` test, then
`.get('name', 'Unknown')`; every failure degrades to `"Unknown"`. -/
def statusName (f : PyField) : String :=
  match f with
  | .dict es => if es.isEmpty then "Unknown" else ((es.lookup "name").getD "Unknown")
  | _ => "Unknown"

/-- `storyStatus` applies `statusName` to a story's nested status field. -/
def storyStatus (s : Story) : String := statusName s.status_extra_info

/-- `taskStatus` applies `statusName` to a task's nested status field. -/
def taskStatus (t : Task) : String := statusName t.status_extra_info

/-- Assignee extraction of the board renderers (lines 21-25 and 238-242):
truthiness and `isinstance` test, then `.get('username', '?')`; every
failure degrades to the `"?"` sentinel. -/
def assigneeName (f : PyField) : String :=
  match f with
  | .dict es => if es.isEmpty then "?" else ((es.lookup "username").getD "?")
  | _ => "?"

/-- Assignee extraction of the blocked-items callout (lines 380-381):
`story.get('assigned_to_extra_info', {})` followed by
`assigned_info.get('username', '?') if assigned_info else '?'`.
There is no `isinstance` test on this path, so a truthy non-dict value is
subjected to attribute access `.get` and raises `AttributeError`. -/
def blockedAssignee (f : PyField) : Except String String :=
  match f with
  | .absent => .ok "?"
  | .null => .ok "?"
  | .other truthy => if truthy then .error "AttributeError" else .ok "?"
  | .dict es => if es.isEmpty then .ok "?" else .ok ((es.lookup "username").getD "?")

/-- Assignee bucketing of the team-workload section (lines 402-406):
truthiness and `isinstance` test, then `.get('username', 'unassigned')`;
every failure degrades to the `"unassigned"` bucket. -/
def workloadUser (f : PyField) : String :=
  match f with
  | .dict es => if es.isEmpty then "unassigned" else ((es.lookup "username").getD "unassigned")
  | _ => "unassigned"

/-- Status extraction of the team-workload filter (lines 397-398):
`story.get('status_extra_info', {})` then
`status_info.get('name', '') if status_info else ''`; no `isinstance`
test, so a truthy non-dict value raises `AttributeError`. -/
def activeStatus (f : PyField) : Except String String :=
  match f with
  | .absent => .ok ""
  | .null => .ok ""
  | .other truthy => if truthy then .error "AttributeError" else .ok ""
  | .dict es => if es.isEmpty then .ok "" else .ok ((es.lookup "name").getD "")

/-- Status extraction of the per-user status breakdown (lines 431-432):
like `activeStatus` but with default `'Unknown'`. -/
def breakdownStatus (f : PyField) : Except String String :=
  match f with
  | .absent => .ok "Unknown"
  | .null => .ok "Unknown"
  | .other truthy => if truthy then .error "AttributeError" else .ok "Unknown"
  | .dict es => if es.isEmpty then .ok "Unknown" else .ok ((es.lookup "name").getD "Unknown")

/-! ### Metrics Calculator -/

/-- Health indicator (line 339):
`"🟢" if blocked_count == 0 else "🟡" if blocked_count < 3 else "🔴"`. -/
def healthIndicator (blocked : Nat) : String :=
  if blocked = 0 then "🟢" else if blocked < 3 then "🟡" else "🔴"

/-- Completion percentage (lines 291, 338, 467, 472):
`(done / total * 100) if total > 0 else 0`, over exact rationals. -/
def completion_percentage (done total : Nat) : ℚ :=
  if 0 < total then (done : ℚ) / (total : ℚ) * 100 else 0

/-- Rounding performed by Python's `%.0f` / `f"{x:.0f}"` float formatting:
round to the nearest integer, ties to even. -/
def fmt0f (q : ℚ) : ℤ :=
  if q - q.floor < 1/2 then q.floor
  else if 1/2 < q - q.floor then q.floor + 1
  else if q.floor % 2 = 0 then q.floor else q.floor + 1

/-- The integer displayed for a completion percentage, e.g. in
`f"({sprint_completion:.0f}%)"` (lines 292, 341, 492, 499, 504). -/
def displayedCompletion (done total : Nat) : ℤ :=
  fmt0f (completion_percentage done total)

/-- Percentage text inside the embeds. -/
def pctDisplay (q : ℚ) : String := toString (fmt0f q)

/-- Workload tier emoji (lines 421-426). -/
def workloadEmoji (count : Nat) : String :=
  if count ≤ 2 then "🟢" else if count ≤ 4 then "🟡" else "🔴"

/-! ### Grouping Engine -/

/-- Appending `a` to the bucket for key `k`, modelling the
`if k not in d: d[k] = []` / `d[k].append(a)` idiom on an insertion-ordered
Python dict (lines 192-194, 212-214, 408-410): an existing key keeps its
position and grows its list; a new key is appended at the end. -/
def dictAppend (m : List (String × List α)) (k : String) (a : α) :
    List (String × List α) :=
  match m with
  | [] => [(k, [a])]
  | (k', v) :: rest =>
      if k' = k then (k', v ++ [a]) :: rest else (k', v) :: dictAppend rest k a

/-- Bucket lookup, modelling `d.get(k, [])`. -/
def bucket {κ α : Type} [BEq κ] (m : List (κ × List α)) (k : κ) : List α :=
  (m.lookup k).getD []

/-- Shared body of `organize_tasks_by_status` (lines 178-196) and
`organize_stories_by_status` (lines 198-216): skip `None` entries, classify
the rest with the status extractor, append each record to its status bucket. -/
def organizeByStatus (status : α → String) (items : List (Option α)) :
    List (String × List (Option α)) :=
  items.foldl (fun m oi =>
    match oi with
    | none => m
    | some i => dictAppend m (status i) (some i)) []

/-- `organize_tasks_by_status` (lines 178-196). -/
def organize_tasks_by_status (tasks : List (Option Task)) :
    List (String × List (Option Task)) :=
  organizeByStatus taskStatus tasks

/-- `organize_stories_by_status` (lines 198-216). -/
def organize_stories_by_status (stories : List (Option Story)) :
    List (String × List (Option Story)) :=
  organizeByStatus storyStatus stories

/-- Predicate selecting the (non-null) records classified into bucket `k`. -/
def inBucket (status : α → String) (k : String) : Option α → Bool
  | none => false
  | some i => status i == k

/-- Total number of records held across all buckets of a grouping. -/
def bucketSizes (m : List (String × List α)) : Nat :=
  (m.map (fun p => p.2.length)).sum

/-! ### Board Renderer -/

/-- Python string slicing `s[:n]`, by code point. -/
def truncate (n : Nat) (s : String) : String := ⟨s.data.take n⟩

/-- The `" (US#...)"` badge of a task line (lines 244-247): present when
`user_story_extra_info` is truthy (modelled as a non-empty dict). -/
def usRefBadge (t : Task) : String :=
  match t.user_story_extra_info with
  | some es => if es.isEmpty then "" else " (US#" ++ ((es.lookup "ref").getD "") ++ ")"
  | none => ""

/-- One rendered task line of a board cell (lines 234-249):
`f"**#{ref}** @{assigned}{us_ref}\n{subject}..."` where the subject was
defaulted with `task.get('subject', 'No title')` and sliced to 25
characters; the ellipsis is appended unconditionally. -/
def taskLine (t : Task) : String :=
  "**#" ++ t.ref ++ "** @" ++ assigneeName t.assigned_to_extra_info ++ usRefBadge t
    ++ "\n" ++ truncate 25 (t.subject.getD "No title") ++ "..."

/-- Task-progress badge of a story line (lines 27-33): for a story with
tasks, a `` `completed/total` `` pair counted from the closed flags. -/
def storyTaskBadge (tasks_by_story : List (Nat × List Task)) (s : Story) : String :=
  let ts := bucket tasks_by_story s.id
  if ts.isEmpty then ""
  else " `" ++ toString (ts.filter (fun t => t.is_closed)).length
        ++ "/" ++ toString ts.length ++ "`"

/-- One rendered story line of a Kanban board cell (lines 17-35). -/
def storyLine (tasks_by_story : List (Nat × List Task)) (s : Story) : String :=
  "**#" ++ s.ref ++ "** @" ++ assigneeName s.assigned_to_extra_info
    ++ storyTaskBadge tasks_by_story s
    ++ "\n" ++ truncate 25 (s.subject.getD "No title") ++ "..."

/-- The individual item lines of one column: the first 3 bucket entries,
skipping `None` entries (lines 12-15 / 229-232). -/
def boardItemLines (render : α → String) (items : List (Option α)) : List String :=
  (items.take 3).filterMap (fun oi => oi.map render)

/-- Full line list of one column (lines 10-44 / 226-258): capped item
lines, then a single overflow line when the bucket holds more than 3
entries, then an em-dash placeholder if the column rendered empty. -/
def boardColumnLines (render : α → String) (items : List (Option α)) : List String :=
  let ls := if 3 < items.length
    then boardItemLines render items
          ++ ["\n*+" ++ toString (items.length - 3) ++ " more*"]
    else boardItemLines render items
  if ls.isEmpty then ["*—*"] else ls

/-- Shared board-section builder (lines 1-52 and 218-266): one field per
defined column, in definition order; the header carries the glyph, the
status name, and the size of the full bucket (not the visible cap). -/
def boardSection (render : α → String) (columns : List (String × String))
    (byStatus : List (String × List (Option α))) : List Field :=
  columns.map (fun c =>
    { name := c.2 ++ " " ++ c.1 ++ " (" ++ toString (bucket byStatus c.1).length ++ ")"
      value := String.intercalate "\n\n" (boardColumnLines render (bucket byStatus c.1))
      inline := true })

/-- `create_task_board_section` (lines 218-266); the `title` argument is
accepted and ignored, as in the source. -/
def create_task_board_section (_title : String) (columns : List (String × String))
    (tasks_by_status : List (String × List (Option Task))) : List Field :=
  boardSection taskLine columns tasks_by_status

/-- `create_story_board_section` (lines 1-52). -/
def create_story_board_section (_title : String) (columns : List (String × String))
    (stories_by_status : List (String × List (Option Story)))
    (tasks_by_story : List (Nat × List Task)) : List Field :=
  boardSection (storyLine tasks_by_story) columns stories_by_status

/-- A sample task for the C5 witness. -/
def sampleTask : Task :=
  { ref := "7", subject := some "A very long task subject exceeding the cap",
    status_extra_info := .dict [("name", "In Progress")],
    assigned_to_extra_info := .dict [("username", "alice")],
    user_story_extra_info := none, is_closed := false, user_story := none }

/-- A 4-entry bucket for the C5 witness. -/
def sampleBucket : List (Option Task) :=
  [some sampleTask, some sampleTask, some sampleTask, some sampleTask]


/-! ### Python string ordering -/

/-- Lexicographic code-point comparison of character lists: the order Python
uses to compare strings, e.g. for the username keys in
`sorted(stories_by_user.items())` (line 413). -/
def charsLt : List Char → List Char → Bool
  | [], [] => false
  | [], _ :: _ => true
  | _ :: _, [] => false
  | a :: as, b :: bs => if a < b then true else if b < a then false else charsLt as bs

/-- Python string `<=` (code-point lexicographic). -/
def pyStrLe (a b : String) : Bool := !(charsLt b.data a.data)

/-! ### Column definitions and sprint selection -/

/-- `KANBAN_COLUMNS` (lines 64-70). -/
def KANBAN_COLUMNS : List (String × String) :=
  [("Not Started", "⏸️"), ("In Progress", "🔄"), ("Ready for Test", "🧪"),
   ("Ready for Review", "👀"), ("Done", "✅")]

/-- `SPRINT_COLUMNS` (lines 73-77). -/
def SPRINT_COLUMNS : List (String × String) :=
  [("Not Started", "⏸️"), ("In Progress", "🔄"), ("Done", "✅")]

/-- A sprint is "current" when both dates are present and
start ≤ today ≤ finish (lines 115-120). -/
def sprintMatches (today : Nat) (s : Sprint) : Bool :=
  match s.estimated_start, s.estimated_finish with
  | some a, some b => decide (a ≤ today) && decide (today ≤ b)
  | _, _ => false

/-- Fallback sort key `x.get('estimated_start', '')` (line 124): a missing
start date sorts as the empty string, before every real date. -/
def startKey (s : Sprint) : Nat := s.estimated_start.getD 0

/-- `get_current_sprint` (lines 112-126): the first sprint whose date range
contains today; otherwise, for a non-empty list, the head of the stable
descending sort by start key — Python's `sorted(..., reverse=True)[0]`,
whose stable tie behavior insertion sort under a non-strict descending
relation reproduces; `None` for an empty list. -/
def get_current_sprint (today : Nat) (sprints : List Sprint) : Option Sprint :=
  match sprints.find? (sprintMatches today) with
  | some s => some s
  | none =>
    if sprints.isEmpty then none
    else (List.insertionSort (fun x y => startKey y ≤ startKey x) sprints).head?

/-! ### The sprint standup embed -/

/-- The fixed reminder paragraph of the sprint embed (lines 282-287). -/
def reminderText : String :=
  "@everyone Hey team, this is your daily reminder to head to the most recent "
    ++ "[Sprints page](https://discord.com/channels/1401686577629106246/1407869050050314311) "
    ++ "and check in with the team. Please comment on the sprint post what you will get done today, "
    ++ "or if you are too busy, just let the team know you are not available today. Thank you!\n\n"

/-- Horizontal separator of the embed descriptions (lines 294, 346). -/
def separatorLine : String := ⟨List.replicate 28 '━'⟩

/-- `create_sprint_standup_embed` (lines 268-327). `dateText` stands for
the wall-clock `datetime.now().strftime(...)` stamp and `project_url` for
`project.get('url', ...)`; the board-section fields (the sprint-scoped
sections) are present only when a sprint is selected and has tasks. -/
def create_sprint_standup_embed (project_name project_url dateText : String)
    (sprint : Option Sprint) (sprint_tasks : List (Option Task))
    (sprint_tasks_by_status : List (String × List (Option Task))) : Embed :=
  let sprint_total := (sprint_tasks.filter (fun oi => oi.isSome)).length
  let sprint_done := (bucket sprint_tasks_by_status "Done").length
  let sprint_name := match sprint with | some s => s.name | none => "No Active Sprint"
  let sprintLine := match sprint with
    | some _ => "🏃 **" ++ sprint_name ++ "**: " ++ toString sprint_done ++ "/"
        ++ toString sprint_total ++ " tasks complete ("
        ++ pctDisplay (completion_percentage sprint_done sprint_total) ++ "%)\n\n"
    | none => ""
  { title := "🌅 Daily Standup • " ++ project_name
    description := "**" ++ dateText ++ "** • [Open Project](" ++ project_url ++ ")\n\n"
      ++ reminderText ++ sprintLine ++ separatorLine
    color := 0x5865F2
    fields := if sprint.isSome ∧ 0 < sprint_total then
        { name := "🏃 " ++ sprint_name ++ " (Sprint Tasks)",
          value := "Active sprint with **" ++ toString sprint_total ++ "** tasks",
          inline := false }
          :: create_task_board_section ("Sprint: " ++ sprint_name) SPRINT_COLUMNS
              sprint_tasks_by_status
      else [] }

/-! ### The metrics embed: blocked callout, team workload, metrics -/

/-- The zero-width-space spacer field (lines 449-453, 480-484). -/
def blankField : Field := { name := "\u200B", value := "\u200B", inline := false }

/-- The blocked-callout lines (lines 374-382), over the first 5 bucket
entries: `f"🚨 **#{ref}** {subject} • @{assigned}"` with the subject sliced
to 50 characters; the assignee extraction can raise (`blockedAssignee`). -/
def blockerLines : List (Option Story) → Except String (List String)
  | [] => .ok []
  | none :: rest => blockerLines rest
  | some s :: rest =>
    match blockedAssignee s.assigned_to_extra_info with
    | .error e => .error e
    | .ok a =>
      match blockerLines rest with
      | .error e => .error e
      | .ok ls =>
        .ok (("🚨 **#" ++ s.ref ++ "** " ++ truncate 50 (s.subject.getD "No title")
            ++ " • @" ++ a) :: ls)

/-- The blocked-items callout (lines 373-388): a single wide field present
exactly when the `'Blocked'` bucket exists and is non-empty. -/
def blockedSection (byStatus : List (String × List (Option Story))) :
    Except String (List Field) :=
  match byStatus.lookup "Blocked" with
  | some l =>
    if l.isEmpty then .ok []
    else
      match blockerLines (l.take 5) with
      | .error e => .error e
      | .ok lines =>
        .ok [{ name := "⚠️ BLOCKED - Needs Immediate Attention",
               value := String.intercalate "\n" lines, inline := false }]
  | none => .ok []

/-- Accumulation of `stories_by_user` (lines 391-410): skip `None`,
skip stories whose status is `Done` or `Archived`, bucket the rest by
assignee username with `'unassigned'` as the fallback key. -/
def buildStoriesByUser : List (Option Story) → List (String × List Story) →
    Except String (List (String × List Story))
  | [], m => .ok m
  | none :: rest, m => buildStoriesByUser rest m
  | some s :: rest, m =>
    match activeStatus s.status_extra_info with
    | .error e => .error e
    | .ok st =>
      if st = "Done" ∨ st = "Archived" then buildStoriesByUser rest m
      else buildStoriesByUser rest (dictAppend m (workloadUser s.assigned_to_extra_info) s)

/-- `stories_by_user` (lines 391-410). -/
def stories_by_user (all_stories : List (Option Story)) :
    Except String (List (String × List Story)) :=
  buildStoriesByUser all_stories []

/-- `sorted(stories_by_user.items())` (line 413): Python's stable sort of
the (username, stories) pairs; the keys are distinct, so the order is the
ascending code-point order of usernames. -/
def sortedByUser (m : List (String × List Story)) : List (String × List Story) :=
  List.insertionSort (fun p q => pyStrLe p.1 q.1 = true) m

/-- `status_counts[col_emoji] = status_counts.get(col_emoji, 0) + 1`
(line 436) on an insertion-ordered dict. -/
def bumpCount (m : List (String × Nat)) (k : String) : List (String × Nat) :=
  match m with
  | [] => [(k, 1)]
  | (k', v) :: rest => if k' = k then (k', v + 1) :: rest else (k', v) :: bumpCount rest k

/-- The per-user status-count accumulation (lines 429-437): each story's
status is matched against `KANBAN_COLUMNS` (first match wins) and counted
under the column's emoji. -/
def breakdownCountsFrom (m : List (String × Nat)) :
    List Story → Except String (List (String × Nat))
  | [] => .ok m
  | s :: rest =>
    match breakdownStatus s.status_extra_info with
    | .error e => .error e
    | .ok st =>
      breakdownCountsFrom
        (match KANBAN_COLUMNS.find? (fun c => st == c.1) with
         | some c => bumpCount m c.2
         | none => m) rest

/-- The breakdown text `" ".join(f"{emoji}{cnt}" ...)` (line 439). -/
def breakdownText (stories : List Story) : Except String String :=
  match breakdownCountsFrom [] stories with
  | .error e => .error e
  | .ok m => .ok (String.intercalate " " (m.map (fun p => p.1 ++ toString p.2)))

/-- The team-workload loop (lines 412-453) over the sorted (username,
stories) pairs, carrying `team_count`: the `'unassigned'` key is skipped
outright (line 414-415, before the counter increment); every other user
emits one narrow field, and a zero-width spacer field follows every third
emitted user field. -/
def workloadLoop : List (String × List Story) → Nat → Except String (List Field)
  | [], _ => .ok []
  | (user, stories) :: rest, team_count =>
    if user = "unassigned" then workloadLoop rest team_count
    else
      match breakdownText stories with
      | .error e => .error e
      | .ok breakdown =>
        match workloadLoop rest (team_count + 1) with
        | .error e => .error e
        | .ok tail =>
          .ok ({ name := workloadEmoji stories.length ++ " @" ++ user,
                 value := "**" ++ toString stories.length ++ "** active\n" ++ breakdown,
                 inline := true }
            :: (if (team_count + 1) % 3 = 0 then [blankField] else []) ++ tail)

/-- The full team-workload section (lines 412-453). -/
def workloadSection (m : List (String × List Story)) : Except String (List Field) :=
  workloadLoop (sortedByUser m) 0

/-- The separate unassigned warning block (lines 456-462): present exactly
when the `'unassigned'` key exists, carrying only the bucket's story count. -/
def unassignedSection (m : List (String × List Story)) : List Field :=
  match m.lookup "unassigned" with
  | some l => [{ name := "⚠️ Unassigned",
                 value := "**" ++ toString l.length ++ "** stories", inline := true }]
  | none => []

/-- `progress_bar` (lines 475-477): `int(percentage / 10)` filled blocks of
a 10-cell bar (`int()` truncation equals `floor` for the non-negative
percentages produced here). -/
def progress_bar (percentage : ℚ) : String :=
  ⟨List.replicate (percentage / 10).floor.toNat '█'
    ++ List.replicate (10 - (percentage / 10).floor.toNat) '░'⟩

/-- The metrics fields (lines 487-507): an optional sprint-progress block —
present only when a sprint is selected and has tasks — then the story and
task progress blocks. -/
def metricFields (sprint : Option Sprint)
    (sprint_done sprint_total kanban_done kanban_total
      completed_tasks total_tasks : Nat) : List Field :=
  (if sprint.isSome ∧ 0 < sprint_total then
    [{ name := "🏃 Sprint Progress",
       value := progress_bar (completion_percentage sprint_done sprint_total)
         ++ "\n**" ++ toString sprint_done ++ "/" ++ toString sprint_total
         ++ "** tasks\n(" ++ pctDisplay (completion_percentage sprint_done sprint_total)
         ++ "%)",
       inline := true }]
   else [])
  ++ [{ name := "📈 Story Progress",
        value := progress_bar (completion_percentage kanban_done kanban_total)
          ++ "\n**" ++ toString kanban_done ++ "/" ++ toString kanban_total
          ++ "** stories\n(" ++ pctDisplay (completion_percentage kanban_done kanban_total)
          ++ "%)",
        inline := true },
      { name := "✓ Task Completion",
        value := progress_bar (completion_percentage completed_tasks total_tasks)
          ++ "\n**" ++ toString completed_tasks ++ "/" ++ toString total_tasks
          ++ "** tasks\n(" ++ pctDisplay (completion_percentage completed_tasks total_tasks)
          ++ "%)",
        inline := true }]

/-- Description of the metrics embed (lines 341-346). -/
def kanbanDescription (kanban_done kanban_total blocked_count : Nat) : String :=
  "📋 **Kanban**: " ++ toString kanban_done ++ "/" ++ toString kanban_total
    ++ " stories complete (" ++ pctDisplay (completion_percentage kanban_done kanban_total)
    ++ "%) " ++ healthIndicator blocked_count ++ "\n"
    ++ (if 0 < blocked_count
        then "🚫 **" ++ toString blocked_count ++ "** blocked items\n" else "")
    ++ "\n" ++ separatorLine

/-- `create_kanban_and_metrics_embed` (lines 329-521): blocked callout,
team-workload fields, unassigned warning, spacer, metrics fields, in that
order (the Kanban board section of lines 350-370 is commented out in the
source; `_tasks_by_story` is accepted and unused accordingly). -/
def create_kanban_and_metrics_embed
    (all_stories : List (Option Story)) (all_tasks : List (Option Task))
    (all_stories_by_status : List (String × List (Option Story)))
    (_tasks_by_story : List (Nat × List Task))
    (sprint : Option Sprint) (sprint_tasks : List (Option Task)) :
    Except String Embed :=
  match blockedSection all_stories_by_status with
  | .error e => .error e
  | .ok bf =>
    match stories_by_user all_stories with
    | .error e => .error e
    | .ok sbu =>
      match workloadSection sbu with
      | .error e => .error e
      | .ok wf =>
        .ok
          { title := "📊 Team Metrics & Workload"
            description := kanbanDescription
              (bucket all_stories_by_status "Done").length
              (all_stories.filter (fun oi => oi.isSome)).length
              (bucket all_stories_by_status "Blocked").length
            color := 0x3498DB
            fields := bf ++ wf ++ unassignedSection sbu ++ [blankField]
              ++ metricFields sprint
                  (sprint_tasks.filter (fun ot => match ot with
                     | some t => t.is_closed | none => false)).length
                  (sprint_tasks.filter (fun oi => oi.isSome)).length
                  (bucket all_stories_by_status "Done").length
                  (all_stories.filter (fun oi => oi.isSome)).length
                  (all_tasks.filter (fun ot => match ot with
                     | some t => t.is_closed | none => false)).length
                  (all_tasks.filter (fun oi => oi.isSome)).length }

/-! ### Dispatcher and run-level control flow -/

/-- `send_to_discord` (lines 527-533): a single webhook POST carrying the
whole embed list verbatim — `{'embeds': embeds}` — with no inspection of
field counts and no splitting. The result lists the POST bodies performed. -/
def send_to_discord (embeds : List Embed) : List (List Embed) := [embeds]

/-- The error-notification embed of the except branch (lines 608-612). -/
def error_embed (e : String) : Embed :=
  { title := "⚠️ Standup Automation Failed",
    description := "```" ++ e ++ "```",
    color := 0xE74C3C, fields := [] }

/-- Outcome of one run: the webhook dispatch calls attempted, in order,
and the final result signalled to the invoking process. -/
structure MainResult where
  calls : List (List Embed)
  outcome : Except String Unit
deriving Repr

/-- Control-flow model of `main` (lines 535-616): `build` is the outcome of
everything in the `try` block before the dispatch call (the two embeds
built, or the exception raised); `primarySend` the outcome of the dispatch
call; `errorSendOutcome` the outcome of the secondary error-notification
dispatch. On any failure the except branch (lines 602-616) attempts one
error-notification dispatch to the same webhook target inside a bare
`try/except: pass` — so its own failure changes nothing — and re-raises the
original error. -/
def main_model (build : Except String (Embed × Embed))
    (primarySend errorSendOutcome : Except String Unit) : MainResult :=
  match build with
  | .error e =>
    match errorSendOutcome with
    | .ok _ => { calls := [[error_embed e]], outcome := .error e }
    | .error _ => { calls := [[error_embed e]], outcome := .error e }
  | .ok (e1, e2) =>
    match primarySend with
    | .ok _ => { calls := [[e1, e2]], outcome := .ok () }
    | .error e =>
      match errorSendOutcome with
      | .ok _ => { calls := [[e1, e2], [error_embed e]], outcome := .error e }
      | .error _ => { calls := [[e1, e2], [error_embed e]], outcome := .error e }

/-! ### Concrete inputs for evaluation -/

/-- A story with an active status assigned to user `u`. -/
def storyFor (u : String) : Story :=
  { id := 0, ref := "1", subject := some "S",
    status_extra_info := .dict [("name", "In Progress")],
    assigned_to_extra_info := .dict [("username", u)], is_closed := false }

/-- Eighteen distinct usernames. -/
def c1Users : List String :=
  ["u01", "u02", "u03", "u04", "u05", "u06", "u07", "u08", "u09", "u10",
   "u11", "u12", "u13", "u14", "u15", "u16", "u17", "u18"]

/-- Eighteen active stories assigned to eighteen distinct users. -/
def c1Stories : List (Option Story) := c1Users.map (fun u => some (storyFor u))

/-- A blocked story whose assigned-to field holds a truthy non-dict value
(as a fetched record with, say, the string `"bob"` there would). -/
def c7Story : Story :=
  { id := 1, ref := "9", subject := some "Broken record",
    status_extra_info := .dict [("name", "Blocked")],
    assigned_to_extra_info := .other true, is_closed := false }

/-- A single-record input exercising the malformed-assignee paths. -/
def c7Stories : List (Option Story) := [some c7Story]

/-- A per-user map with an unassigned bucket, out of alphabetical order. -/
def c10Map : List (String × List Story) :=
  [("zoe", [storyFor "zoe"]), ("unassigned", [storyFor "unassigned"]),
   ("amy", [storyFor "amy"])]

/-- Two sprints with disjoint date ranges. -/
def sprintA : Sprint :=
  { name := "Sprint A", estimated_start := some 10, estimated_finish := some 20 }

/-- See `sprintA`. -/
def sprintB : Sprint :=
  { name := "Sprint B", estimated_start := some 30, estimated_finish := some 40 }

/-! ### Theorems -/

/-! ### Bridging lemmas for `fmt0f` -/

theorem rat_floor_eq_intFloor (q : ℚ) : (q.floor : ℤ) = ⌊q⌋ := by
  rw [Rat.floor_def, Rat.floor_def']

theorem fmt0f_near (q : ℚ) : |(fmt0f q : ℚ) - q| ≤ 1/2 := by
  have hle : (q.floor : ℚ) ≤ q := by
    rw [show ((q.floor : ℤ) : ℚ) = ((⌊q⌋ : ℤ) : ℚ) by rw [rat_floor_eq_intFloor]]
    exact Int.floor_le q
  have hlt : q < q.floor + 1 := by
    rw [show ((q.floor : ℤ) : ℚ) = ((⌊q⌋ : ℤ) : ℚ) by rw [rat_floor_eq_intFloor]]
    exact Int.lt_floor_add_one q
  unfold fmt0f
  split
  · next h => rw [abs_le]; constructor <;> linarith
  · split
    · next h h2 => rw [abs_le]; push_cast; constructor <;> linarith
    · next h h2 =>
      have heq : q - q.floor = 1/2 := le_antisymm (not_lt.mp h2) (not_lt.mp h)
      split
      · rw [abs_le]; constructor <;> linarith
      · rw [abs_le]; push_cast; constructor <;> linarith

theorem fmt0f_zero : fmt0f 0 = 0 := by
  have h : (0 : ℚ).floor = 0 := by
    have := rat_floor_eq_intFloor 0
    rwa [Int.floor_zero] at this
  rw [fmt0f, h]
  norm_num

/-- Evaluation of `fmt0f` at 125/2 = 62.5: the tie rounds to the even
integer 62, exactly as Python renders `f"{62.5:.0f}"` as `"62"`. -/
theorem fmt0f_tie_62 : fmt0f (125/2 : ℚ) = 62 := by
  have h : (125/2 : ℚ).floor = 62 := by
    have := rat_floor_eq_intFloor (125/2 : ℚ)
    have hf : ⌊(125/2 : ℚ)⌋ = 62 := by
      rw [Int.floor_eq_iff]
      norm_num
    omega
  rw [fmt0f, h]
  norm_num

theorem lookup_dictAppend (m : List (String × List α)) (k k' : String) (a : α) :
    bucket (dictAppend m k a) k' = bucket m k' ++ (if k' == k then [a] else []) := by
  induction m with
  | nil =>
    by_cases h : k' = k
    · simp [dictAppend, bucket, List.lookup, h]
    · simp [dictAppend, bucket, List.lookup, h, beq_false_of_ne h]
  | cons p rest ih =>
    obtain ⟨k₀, v⟩ := p
    by_cases h0 : k₀ = k
    · subst h0
      by_cases h1 : k' = k₀
      · subst h1
        simp [dictAppend, bucket, List.lookup]
      · simp [dictAppend, bucket, List.lookup, beq_false_of_ne h1]
    · by_cases h1 : k' = k₀
      · subst h1
        have hne : (k' == k) = false := by
          simp only [beq_eq_false_iff_ne, ne_eq]
          exact h0
        simp [dictAppend, if_neg h0, bucket, List.lookup, hne]
      · simp only [dictAppend, if_neg h0, bucket, List.lookup, beq_false_of_ne h1]
        exact ih

theorem bucketSizes_dictAppend (m : List (String × List α)) (k : String) (a : α) :
    bucketSizes (dictAppend m k a) = bucketSizes m + 1 := by
  induction m with
  | nil => simp [dictAppend, bucketSizes]
  | cons p rest ih =>
    obtain ⟨k₀, v⟩ := p
    by_cases h0 : k₀ = k
    · simp [dictAppend, h0, bucketSizes]
      omega
    · simp only [dictAppend, if_neg h0, bucketSizes, List.map_cons, List.sum_cons]
      have := ih
      simp only [bucketSizes] at this
      omega

theorem bucket_organize_aux (status : α → String) (items : List (Option α))
    (m : List (String × List (Option α))) (k : String) :
    bucket (items.foldl (fun m oi =>
        match oi with
        | none => m
        | some i => dictAppend m (status i) (some i)) m) k
      = bucket m k ++ items.filter (inBucket status k) := by
  induction items generalizing m with
  | nil => simp
  | cons oi rest ih =>
    cases oi with
    | none => simpa [inBucket] using ih m
    | some i =>
      simp only [List.foldl_cons, List.filter_cons]
      rw [ih (dictAppend m (status i) (some i)), lookup_dictAppend]
      by_cases h : status i = k
      · have hb : inBucket status k (some i) = true := by
          simp [inBucket, h]
        have hb' : (k == status i) = true := by simp [h]
        simp [hb, hb', List.append_assoc]
      · have hb : inBucket status k (some i) = false := by
          simp [inBucket, h]
        have hb' : (k == status i) = false := by
          simp only [beq_eq_false_iff_ne, ne_eq]
          intro he; exact h he.symm
        simp [hb, hb']

theorem bucketSizes_organize_aux (status : α → String) (items : List (Option α))
    (m : List (String × List (Option α))) :
    bucketSizes (items.foldl (fun m oi =>
        match oi with
        | none => m
        | some i => dictAppend m (status i) (some i)) m)
      = bucketSizes m + (items.filter (fun oi => oi.isSome)).length := by
  induction items generalizing m with
  | nil => simp
  | cons oi rest ih =>
    cases oi with
    | none => simpa using ih m
    | some i =>
      simp only [List.foldl_cons]
      rw [ih (dictAppend m (status i) (some i)), bucketSizes_dictAppend]
      simp [List.filter_cons]
      omega

/-- C4: for every input sequence of possibly-null records, the status
grouping contains no null entries; every non-null record lands in exactly one
status bucket — bucket `k` is precisely the subsequence of non-null inputs
whose classified status is `k`, in input order — and the bucket sizes sum to
the number of non-null inputs. Stated for `organize_stories_by_status` and
`organize_tasks_by_status` alike. -/
theorem C4_grouping_partition :
    (∀ (stories : List (Option Story)) (k : String),
        bucket (organize_stories_by_status stories) k
          = stories.filter (inBucket storyStatus k)) ∧
    (∀ (stories : List (Option Story)) (k : String),
        (bucket (organize_stories_by_status stories) k).all Option.isSome = true) ∧
    (∀ stories : List (Option Story),
        bucketSizes (organize_stories_by_status stories)
          = (stories.filter (fun oi => oi.isSome)).length) ∧
    (∀ (tasks : List (Option Task)) (k : String),
        bucket (organize_tasks_by_status tasks) k
          = tasks.filter (inBucket taskStatus k)) ∧
    (∀ (tasks : List (Option Task)) (k : String),
        (bucket (organize_tasks_by_status tasks) k).all Option.isSome = true) ∧
    (∀ tasks : List (Option Task),
        bucketSizes (organize_tasks_by_status tasks)
          = (tasks.filter (fun oi => oi.isSome)).length) := by
  have hchar : ∀ (α : Type) (status : α → String) (items : List (Option α)) (k : String),
      bucket (organizeByStatus status items) k = items.filter (inBucket status k) := by
    intro α status items k
    have := bucket_organize_aux status items [] k
    simpa [organizeByStatus, bucket] using this
  have hall : ∀ (α : Type) (status : α → String) (items : List (Option α)) (k : String),
      (bucket (organizeByStatus status items) k).all Option.isSome = true := by
    intro α status items k
    rw [hchar]
    rw [List.all_eq_true]
    intro oi hmem
    have := List.of_mem_filter hmem
    cases oi with
    | none => simp [inBucket] at this
    | some i => simp
  have hsum : ∀ (α : Type) (status : α → String) (items : List (Option α)),
      bucketSizes (organizeByStatus status items)
        = (items.filter (fun oi => oi.isSome)).length := by
    intro α status items
    have := bucketSizes_organize_aux status items []
    simpa [organizeByStatus, bucketSizes] using this
  exact ⟨fun s k => hchar _ storyStatus s k, fun s k => hall _ storyStatus s k,
    fun s => hsum _ storyStatus s, fun t k => hchar _ taskStatus t k,
    fun t k => hall _ taskStatus t k, fun t => hsum _ taskStatus t⟩

/-- C5: each rendered column shows at most 3 items as individual lines;
when the bucket holds more than 3 entries the column is exactly the capped
item lines followed by one `"+N more"` line with N = count − 3; when it
holds at most 3 there is no overflow line; and every column header shows
the full bucket count, for the task and story board sections alike. -/
theorem C5_board_column_cap :
    (∀ (α : Type) (render : α → String) (items : List (Option α)),
        (boardItemLines render items).length ≤ 3) ∧
    (∀ (α : Type) (render : α → String) (items : List (Option α)),
        3 < items.length →
          boardColumnLines render items
            = boardItemLines render items
                ++ ["\n*+" ++ toString (items.length - 3) ++ " more*"]) ∧
    (∀ (α : Type) (render : α → String) (items : List (Option α)),
        items.length ≤ 3 →
          boardColumnLines render items
            = if (boardItemLines render items).isEmpty then ["*—*"]
              else boardItemLines render items) ∧
    (∀ (title : String) (columns : List (String × String))
        (tbs : List (String × List (Option Task))),
        (create_task_board_section title columns tbs).map Field.name
          = columns.map (fun c =>
              c.2 ++ " " ++ c.1 ++ " (" ++ toString (bucket tbs c.1).length ++ ")")) ∧
    (∀ (title : String) (columns : List (String × String))
        (sbs : List (String × List (Option Story))) (tbs : List (Nat × List Task)),
        (create_story_board_section title columns sbs tbs).map Field.name
          = columns.map (fun c =>
              c.2 ++ " " ++ c.1 ++ " (" ++ toString (bucket sbs c.1).length ++ ")")) := by
  refine ⟨?_, ?_, ?_, ?_, ?_⟩
  · intro α render items
    calc (boardItemLines render items).length
        ≤ (items.take 3).length := List.length_filterMap_le _ _
      _ ≤ 3 := List.length_take_le _ _
  · intro α render items h
    rw [boardColumnLines, if_pos h]
    have : (boardItemLines render items
        ++ ["\n*+" ++ toString (items.length - 3) ++ " more*"]).isEmpty = false := by
      simp
    rw [this]
    simp
  · intro α render items h
    have hlt : ¬ 3 < items.length := by omega
    rw [boardColumnLines]
    simp only [if_neg hlt]
  · intro title columns tbs
    simp [create_task_board_section, boardSection]
  · intro title columns sbs tbs
    simp [create_story_board_section, boardSection]

/-- Witness for `C5_board_column_cap` on a 4-entry bucket. -/
theorem C5_board_column_cap_witness :
    (boardItemLines taskLine sampleBucket).length ≤ 3 ∧
    boardColumnLines taskLine sampleBucket
      = boardItemLines taskLine sampleBucket
          ++ ["\n*+" ++ toString (sampleBucket.length - 3) ++ " more*"] ∧
    boardColumnLines taskLine [(none : Option Task)]
      = if (boardItemLines taskLine [(none : Option Task)]).isEmpty then ["*—*"]
        else boardItemLines taskLine [(none : Option Task)] :=
  ⟨C5_board_column_cap.1 Task taskLine sampleBucket,
   C5_board_column_cap.2.1 Task taskLine sampleBucket (by decide),
   C5_board_column_cap.2.2.1 Task taskLine [(none : Option Task)] (by decide)⟩

/-- C6: every rendered board item line carries a title sliced to at most 25
characters followed by an unconditional `"..."` marker — the ellipsis is
appended whether or not the slice actually shortened the subject. -/
theorem C6_title_truncation :
    (∀ s : String, (truncate 25 s).length ≤ 25) ∧
    (∀ t : Task, ∃ p : String,
        taskLine t = p ++ (truncate 25 (t.subject.getD "No title") ++ "...")) ∧
    (∀ (tbs : List (Nat × List Task)) (s : Story), ∃ p : String,
        storyLine tbs s = p ++ (truncate 25 (s.subject.getD "No title") ++ "...")) := by
  refine ⟨?_, ?_, ?_⟩
  · intro s
    show (s.data.take 25).length ≤ 25
    rw [List.length_take]
    exact min_le_left _ _
  · intro t
    refine ⟨"**#" ++ t.ref ++ "** @" ++ assigneeName t.assigned_to_extra_info
      ++ usRefBadge t ++ "\n", ?_⟩
    rw [taskLine]
    simp [String.append_assoc]
  · intro tbs s
    refine ⟨"**#" ++ s.ref ++ "** @" ++ assigneeName s.assigned_to_extra_info
      ++ storyTaskBadge tbs s ++ "\n", ?_⟩
    rw [storyLine]
    simp [String.append_assoc]

/-! ### C2 and C3 -/

/-- C2 counterexample: the script displays 5 done of 8 total as 62%, not the
63% the specification states — Python's `%.0f` formatting rounds 62.5 to the
even integer 62. -/
theorem C2_counterexample_5_of_8 :
    displayedCompletion 5 8 = 62 ∧ displayedCompletion 5 8 ≠ 63 := by
  have hq : completion_percentage 5 8 = (125/2 : ℚ) := by
    rw [completion_percentage, if_pos (by norm_num)]
    norm_num
  have h : displayedCompletion 5 8 = 62 := by
    rw [displayedCompletion, hq, fmt0f_tie_62]
  exact ⟨h, by rw [h]; decide⟩

/-- C2 (amended): the displayed completion percentage is 0 when the total is
0, and otherwise is done/total×100 rounded to a nearest integer (within 1/2,
ties broken to the even integer by `%.0f`); for 5 done of 8 total the display
is 62%, not 63%. -/
theorem C2_completion_display :
    (∀ done : Nat, displayedCompletion done 0 = 0) ∧
    (∀ done total : Nat, 0 < total →
        |(displayedCompletion done total : ℚ) - (done : ℚ) / (total : ℚ) * 100| ≤ 1/2) ∧
    displayedCompletion 5 8 = 62 := by
  have h58 : displayedCompletion 5 8 = 62 := by
    have hq : completion_percentage 5 8 = (125/2 : ℚ) := by
      rw [completion_percentage, if_pos (by norm_num)]
      norm_num
    rw [displayedCompletion, hq, fmt0f_tie_62]
  refine ⟨?_, ?_, h58⟩
  · intro done
    have h : completion_percentage done 0 = 0 := by simp [completion_percentage]
    rw [displayedCompletion, h, fmt0f_zero]
  · intro done total h
    have hq : completion_percentage done total = (done : ℚ) / (total : ℚ) * 100 := by
      simp [completion_percentage, h]
    rw [displayedCompletion, hq]
    exact fmt0f_near _

/-- Witness for `C2_completion_display` at done = 5, total = 8. -/
theorem C2_completion_display_witness :
    |(displayedCompletion 5 8 : ℚ) - ((5 : Nat) : ℚ) / ((8 : Nat) : ℚ) * 100| ≤ 1/2 :=
  C2_completion_display.2.1 5 8 (by norm_num)

/-- C3: the health indicator is a pure function of the blocked count
(line 339): green ("healthy") exactly when blocked = 0, yellow ("watch")
exactly when 0 < blocked < 3, red ("attention") exactly when blocked ≥ 3. -/
theorem C3_health_tiers (b : Nat) :
    (healthIndicator b = "🟢" ↔ b = 0) ∧
    (healthIndicator b = "🟡" ↔ 0 < b ∧ b < 3) ∧
    (healthIndicator b = "🔴" ↔ 3 ≤ b) := by
  rcases b with _ | _ | _ | n
  · exact ⟨by decide, by decide, by decide⟩
  · exact ⟨by decide, by decide, by decide⟩
  · exact ⟨by decide, by decide, by decide⟩
  · have hh : healthIndicator (n + 3) = "🔴" := by
      rw [healthIndicator, if_neg (by omega), if_neg (by omega)]
    rw [hh]
    exact ⟨⟨fun h => absurd h (by decide), fun h => absurd h (by omega)⟩,
      ⟨fun h => absurd h (by decide), fun h => absurd h.2 (by omega)⟩,
      ⟨fun _ => by omega, fun _ => rfl⟩⟩

/-! #### Code-point order lemmas -/

theorem charsLt_asymm : ∀ (x y : List Char), charsLt x y = true → charsLt y x = false
  | [], [], h => by simp [charsLt] at h
  | [], _ :: _, _ => rfl
  | _ :: _, [], h => by simp [charsLt] at h
  | a :: as, b :: bs, h => by
    by_cases hab : a < b
    · have hba : ¬ b < a := lt_asymm hab
      simp [charsLt, hab, hba]
    · by_cases hba : b < a
      · simp [charsLt, hab, hba] at h
      · simp only [charsLt, if_neg hab, if_neg hba] at h
        simp only [charsLt, if_neg hab, if_neg hba]
        exact charsLt_asymm as bs h

theorem charsLt_trans : ∀ (x y z : List Char),
    charsLt x y = true → charsLt y z = true → charsLt x z = true
  | [], [], _, h1, _ => by simp [charsLt] at h1
  | [], _ :: _, [], _, h2 => by simp [charsLt] at h2
  | [], _ :: _, _ :: _, _, _ => rfl
  | _ :: _, [], _, h1, _ => by simp [charsLt] at h1
  | _ :: _, _ :: _, [], _, h2 => by simp [charsLt] at h2
  | a :: as, b :: bs, c :: cs, h1, h2 => by
    by_cases hab : a < b
    · by_cases hbc : b < c
      · have hac : a < c := lt_trans hab hbc
        simp [charsLt, hac]
      · by_cases hcb : c < b
        · simp [charsLt, hbc, hcb] at h2
        · have hbc2 : b = c := le_antisymm (not_lt.mp hcb) (not_lt.mp hbc)
          subst hbc2
          simp [charsLt, hab]
    · by_cases hba : b < a
      · simp [charsLt, hab, hba] at h1
      · have hab2 : a = b := le_antisymm (not_lt.mp hba) (not_lt.mp hab)
        subst hab2
        simp only [charsLt, if_neg hab, if_neg hba] at h1
        by_cases hac : a < c
        · simp [charsLt, hac]
        · by_cases hca : c < a
          · simp [charsLt, hac, hca] at h2
          · simp only [charsLt, if_neg hac, if_neg hca] at h2 ⊢
            exact charsLt_trans as bs cs h1 h2

theorem charsLt_connex : ∀ (x y : List Char), charsLt x y = false →
    charsLt y x = true ∨ x = y
  | [], [], _ => Or.inr rfl
  | [], _ :: _, h => by simp [charsLt] at h
  | _ :: _, [], _ => Or.inl rfl
  | a :: as, b :: bs, h => by
    by_cases hab : a < b
    · simp [charsLt, hab] at h
    · by_cases hba : b < a
      · exact Or.inl (by simp [charsLt, hba])
      · have hab2 : a = b := le_antisymm (not_lt.mp hba) (not_lt.mp hab)
        subst hab2
        simp only [charsLt, if_neg hab, if_neg hba] at h
        rcases charsLt_connex as bs h with h2 | h2
        · exact Or.inl (by simp only [charsLt, if_neg hab, if_neg hba]; exact h2)
        · exact Or.inr (by rw [h2])

theorem charsLt_irrefl (x : List Char) : charsLt x x = false := by
  induction x with
  | nil => rfl
  | cons a as ih => simp [charsLt, lt_irrefl a, ih]

theorem pyStrLe_total (a b : String) : pyStrLe a b = true ∨ pyStrLe b a = true := by
  rw [pyStrLe, pyStrLe]
  cases h : charsLt b.data a.data with
  | false => exact Or.inl rfl
  | true => exact Or.inr (by rw [charsLt_asymm _ _ h]; rfl)

theorem pyStrLe_trans (a b c : String) (h1 : pyStrLe a b = true)
    (h2 : pyStrLe b c = true) : pyStrLe a c = true := by
  rw [pyStrLe, Bool.not_eq_true'] at h1 h2 ⊢
  by_contra hx
  have hx2 : charsLt c.data a.data = true := by
    cases hcv : charsLt c.data a.data
    · exact absurd hcv hx
    · rfl
  rcases charsLt_connex _ _ h1 with h3 | h3
  · rcases charsLt_connex _ _ h2 with h4 | h4
    · have h5 : charsLt a.data c.data = true := charsLt_trans _ _ _ h3 h4
      rw [charsLt_asymm _ _ h5] at hx2
      exact Bool.false_ne_true hx2
    · rw [h4, h1] at hx2
      exact Bool.false_ne_true hx2
  · rw [h3] at h2
    rw [h2] at hx2
    exact Bool.false_ne_true hx2

/-! #### Team-workload section -/

theorem workloadEmoji_length (c : Nat) : (workloadEmoji c).length = 1 := by
  rw [workloadEmoji]
  split
  · decide
  · split <;> decide

theorem workload_name_ne_blank (c : Nat) (u : String) :
    ((workloadEmoji c ++ " @" ++ u) != "​") = true := by
  have hne : workloadEmoji c ++ " @" ++ u ≠ "​" := by
    intro h
    have hlen := congrArg String.length h
    rw [String.length_append, String.length_append, workloadEmoji_length] at hlen
    have h2 : (" @" : String).length = 2 := by decide
    have h3 : ("​" : String).length = 1 := by decide
    rw [h2, h3] at hlen
    omega
  simp [bne_iff_ne, hne]

theorem blank_spacer_filtered (cond : Bool) :
    ((if cond = true then [blankField] else []).filter
        (fun f => f.name != "​")) = [] := by
  cases cond <;> simp [blankField]

/-- C10: the team-workload section iterates assignees in ascending
code-point (alphabetical) order of username; the `'unassigned'` key is
excluded from that iteration — removing unassigned entries beforehand gives
the identical output, so it emits no workload block and does not advance
the three-per-row spacer counter — and the per-assignee blocks emitted are
exactly, in order, one block per non-unassigned user of the sorted map;
a present unassigned bucket is instead reported as a single separate
"⚠️ Unassigned" block carrying only its story count. -/
theorem C10_workload_section :
    (∀ m : List (String × List Story),
        List.Sorted (fun p q => pyStrLe p.1 q.1 = true) (sortedByUser m)) ∧
    (∀ (l : List (String × List Story)) (tc : Nat),
        workloadLoop l tc
          = workloadLoop (l.filter (fun p => p.1 != "unassigned")) tc) ∧
    (∀ (l : List (String × List Story)) (tc : Nat) (fs : List Field),
        workloadLoop l tc = .ok fs →
          (fs.filter (fun f => f.name != "​")).map Field.name
            = (l.filter (fun p => p.1 != "unassigned")).map
                (fun p => workloadEmoji p.2.length ++ " @" ++ p.1)) ∧
    (∀ (m : List (String × List Story)) (l : List Story),
        m.lookup "unassigned" = some l →
          unassignedSection m
            = [{ name := "⚠️ Unassigned",
                 value := "**" ++ toString l.length ++ "** stories",
                 inline := true }]) ∧
    (∀ m : List (String × List Story),
        m.lookup "unassigned" = none → unassignedSection m = []) := by
  refine ⟨?_, ?_, ?_, ?_, ?_⟩
  · intro m
    haveI : IsTotal (String × List Story) (fun p q => pyStrLe p.1 q.1 = true) :=
      ⟨fun p q => pyStrLe_total p.1 q.1⟩
    haveI : IsTrans (String × List Story) (fun p q => pyStrLe p.1 q.1 = true) :=
      ⟨fun p q r hpq hqr => pyStrLe_trans _ _ _ hpq hqr⟩
    exact List.sorted_insertionSort _ m
  · intro l tc
    induction l generalizing tc with
    | nil => rfl
    | cons p rest ih =>
      obtain ⟨u, ss⟩ := p
      by_cases hu : u = "unassigned"
      · subst hu
        have hcond : (("unassigned" : String) != "unassigned") = false := by decide
        simp [workloadLoop, List.filter_cons, hcond, ih tc]
      · have hcond : ((u : String) != "unassigned") = true := by
          simp [bne_iff_ne]
          exact hu
        simp only [List.filter_cons, hcond, if_true]
        cases hb : breakdownText ss with
        | error e => simp [workloadLoop, hu, hb]
        | ok bd => simp [workloadLoop, hu, hb, ih (tc + 1)]
  · intro l tc fs h
    induction l generalizing tc fs with
    | nil =>
      simp only [workloadLoop] at h
      have hfs := Except.ok.inj h
      subst hfs
      rfl
    | cons p rest ih =>
      obtain ⟨u, ss⟩ := p
      by_cases hu : u = "unassigned"
      · subst hu
        simp only [workloadLoop, if_pos rfl] at h
        have hcond : (("unassigned" : String) != "unassigned") = false := by decide
        rw [List.filter_cons, hcond]
        simp only [Bool.false_eq_true, if_false]
        exact ih tc fs h
      · simp only [workloadLoop, if_neg hu] at h
        cases hb : breakdownText ss with
        | error e =>
          rw [hb] at h
          exact Except.noConfusion h
        | ok bd =>
          rw [hb] at h
          cases ht : workloadLoop rest (tc + 1) with
          | error e =>
            rw [ht] at h
            exact Except.noConfusion h
          | ok tail =>
            rw [ht] at h
            have hfs := Except.ok.inj h
            subst hfs
            have hcond : ((u : String) != "unassigned") = true := by
              simp only [bne_iff_ne, ne_eq]
              exact hu
            have hsp : ((if (tc + 1) % 3 = 0 then [blankField] else []).filter
                (fun f => f.name != "​")) = [] := by
              by_cases hc : (tc + 1) % 3 = 0
              · simp [hc, blankField]
              · simp [hc]
            simp only [List.filter_cons, List.filter_append, hcond,
              workload_name_ne_blank, hsp, List.nil_append, List.map_cons,
              if_true, ite_true, List.cons_append]
            simp only [List.filter_cons, List.filter_append, hsp] at *
            rw [ih (tc + 1) tail ht]
  · intro m l h
    simp [unassignedSection, h]
  · intro m h
    simp [unassignedSection, h]

/-- Witness for `C10_workload_section` on `c10Map`: the per-assignee blocks
come out as amy then zoe, skipping the unassigned bucket, which is reported
separately. -/
theorem C10_workload_section_witness :
    (([{ name := "🟢 @amy", value := "**1** active\n🔄1", inline := true },
        { name := "🟢 @zoe", value := "**1** active\n🔄1", inline := true }] :
          List Field).filter (fun f => f.name != "​")).map Field.name
      = ((sortedByUser c10Map).filter (fun p => p.1 != "unassigned")).map
          (fun p => workloadEmoji p.2.length ++ " @" ++ p.1) ∧
    unassignedSection c10Map
      = [{ name := "⚠️ Unassigned",
           value := "**" ++ toString ([storyFor "unassigned"] : List Story).length
             ++ "** stories",
           inline := true }] :=
  ⟨C10_workload_section.2.2.1 (sortedByUser c10Map) 0 _ (by rfl),
   C10_workload_section.2.2.2.1 c10Map [storyFor "unassigned"] (by rfl)⟩

/-! #### Sprint selection -/

theorem find?_append_first {α : Type} (p : α → Bool) :
    ∀ (pre : List α) (s : α) (post : List α),
      (∀ t ∈ pre, p t = false) → p s = true →
      (pre ++ s :: post).find? p = some s
  | [], s, post, _, hs => by simp [List.find?, hs]
  | a :: pre, s, post, hpre, hs => by
    have ha : p a = false := hpre a (by simp)
    simp only [List.cons_append, List.find?, ha]
    exact find?_append_first p pre s post (fun t ht => hpre t (by simp [ht])) hs

/-- C8: `get_current_sprint` selects nothing from an empty list; it returns
the first sprint whose date range contains today; with no in-range sprint
and a non-empty list it falls back to a sprint carrying the maximal start
key — the most recently started; and with no sprint selected the sprint
embed has no fields at all, the metrics section has no sprint block, and
the metrics embed is still assembled successfully (here on an otherwise
empty snapshot: spacer plus the two metric blocks). -/
theorem C8_sprint_selection :
    (∀ today : Nat, get_current_sprint today [] = none) ∧
    (∀ (today : Nat) (pre post : List Sprint) (s : Sprint),
        (∀ t ∈ pre, sprintMatches today t = false) →
        sprintMatches today s = true →
        get_current_sprint today (pre ++ s :: post) = some s) ∧
    (∀ (today : Nat) (sprints : List Sprint),
        sprints ≠ [] →
        (∀ t ∈ sprints, sprintMatches today t = false) →
        ∃ s, get_current_sprint today sprints = some s ∧ s ∈ sprints ∧
          ∀ t ∈ sprints, startKey t ≤ startKey s) ∧
    (∀ (pn pu dt : String) (ts : List (Option Task))
        (tbs : List (String × List (Option Task))),
        (create_sprint_standup_embed pn pu dt none ts tbs).fields = []) ∧
    (∀ sd st kd kt ct tt : Nat,
        (metricFields none sd st kd kt ct tt).map Field.name
          = ["📈 Story Progress", "✓ Task Completion"]) ∧
    (create_kanban_and_metrics_embed [] [] [] [] none []).map
        (fun e => e.fields.length) = .ok 3 := by
  refine ⟨?_, ?_, ?_, ?_, ?_, rfl⟩
  · intro today
    rfl
  · intro today pre post s hpre hs
    have hfind := find?_append_first (sprintMatches today) pre s post hpre hs
    simp [get_current_sprint, hfind]
  · intro today sprints hne hall
    have hfind : sprints.find? (sprintMatches today) = none := by
      rw [List.find?_eq_none]
      intro x hx
      simp [hall x hx]
    haveI : IsTotal Sprint (fun x y => startKey y ≤ startKey x) :=
      ⟨fun a b => le_total (startKey b) (startKey a)⟩
    haveI : IsTrans Sprint (fun x y => startKey y ≤ startKey x) :=
      ⟨fun a b c hab hbc => le_trans hbc hab⟩
    have hperm : List.Perm
        (List.insertionSort (fun x y => startKey y ≤ startKey x) sprints) sprints :=
      List.perm_insertionSort _ _
    have hsorted : List.Sorted (fun x y => startKey y ≤ startKey x)
        (List.insertionSort (fun x y => startKey y ≤ startKey x) sprints) :=
      List.sorted_insertionSort _ _
    have hfbne : List.insertionSort (fun x y => startKey y ≤ startKey x) sprints ≠ [] := by
      intro h0
      apply hne
      have hl := hperm.length_eq
      rw [h0] at hl
      exact List.length_eq_zero.mp hl.symm
    obtain ⟨h, t, hht⟩ := List.exists_cons_of_ne_nil hfbne
    refine ⟨h, ?_, ?_, ?_⟩
    · have hemp : sprints.isEmpty = false := by
        cases sprints with
        | nil => exact absurd rfl hne
        | cons a l => rfl
      simp [get_current_sprint, hfind, hemp, hht]
    · have hmem : h ∈ List.insertionSort (fun x y => startKey y ≤ startKey x) sprints := by
        rw [hht]
        exact List.mem_cons_self _ _
      exact hperm.mem_iff.mp hmem
    · intro t2 ht2
      have hmem2 : t2 ∈ List.insertionSort (fun x y => startKey y ≤ startKey x) sprints :=
        hperm.mem_iff.mpr ht2
      rw [hht] at hmem2 hsorted
      rcases List.mem_cons.mp hmem2 with heq | hmem3
      · rw [heq]
      · exact (List.sorted_cons.mp hsorted).1 t2 hmem3
  · intro pn pu dt ts tbs
    simp [create_sprint_standup_embed]
  · intro sd st kd kt ct tt
    simp [metricFields]

/-- Witness for `C8_sprint_selection`: day 35 falls only in Sprint B's
range, and on day 50 no range matches so a maximal-start sprint is the
fallback. -/
theorem C8_sprint_selection_witness :
    get_current_sprint 35 ([sprintA] ++ sprintB :: []) = some sprintB ∧
    (∃ s, get_current_sprint 50 [sprintA, sprintB] = some s ∧
        s ∈ [sprintA, sprintB] ∧
        ∀ t ∈ [sprintA, sprintB], startKey t ≤ startKey s) :=
  ⟨C8_sprint_selection.2.1 35 [sprintA] [] sprintB (by decide) (by decide),
   C8_sprint_selection.2.2.1 50 [sprintA, sprintB] (by decide) (by decide)⟩

/-! #### Run-level error handling, field-count overflow, sentinel paths -/

/-- C9: whenever the run aborts with a fatal error — raised while building
the embeds or by the dispatch call itself — exactly one best-effort
error-notification dispatch is attempted on the same webhook target, the
original error is the one signalled to the caller, and both the call
sequence and the outcome are independent of whether that secondary
dispatch succeeds or fails (its failure is swallowed). -/
theorem C9_error_reporting :
    (∀ (e : String) (ps es : Except String Unit),
        main_model (.error e) ps es
          = { calls := [[error_embed e]], outcome := .error e }) ∧
    (∀ (e1 e2 : Embed) (e : String) (es : Except String Unit),
        main_model (.ok (e1, e2)) (.error e) es
          = { calls := [[e1, e2], [error_embed e]], outcome := .error e }) ∧
    (∀ (b : Except String (Embed × Embed)) (ps es es2 : Except String Unit),
        main_model b ps es = main_model b ps es2) ∧
    (∀ e1 e2 : Embed,
        main_model (.ok (e1, e2)) (.ok ()) (.ok ())
          = { calls := [[e1, e2]], outcome := .ok () }) := by
  refine ⟨?_, ?_, ?_, ?_⟩
  · intro e ps es
    cases es <;> rfl
  · intro e1 e2 e es
    cases es <;> rfl
  · intro b ps es es2
    cases b with
    | error e => cases es <;> cases es2 <;> rfl
    | ok p =>
      obtain ⟨e1, e2⟩ := p
      cases ps with
      | ok u => rfl
      | error e => cases es <;> cases es2 <;> rfl
  · intro e1 e2
    rfl

/-- C1 evaluation (code bug): with 18 active stories assigned to 18
distinct users the assembled metrics embed holds 27 named value blocks —
18 workload blocks, 6 spacers, the separator, and 2 metric blocks — which
exceeds the 25-per-payload platform limit, and `send_to_discord` performs
exactly one webhook POST carrying the embed list verbatim, with no
field-count check and no splitting. -/
theorem C1_no_field_cap :
    (create_kanban_and_metrics_embed c1Stories []
        (organize_stories_by_status c1Stories) [] none []).map
      (fun e => e.fields.length) = .ok 27 ∧
    (∀ embeds : List Embed, (send_to_discord embeds).length = 1) :=
  ⟨rfl, fun _ => rfl⟩

/-- C7 evaluation (code bug): an absent, null, or non-dict assigned-to
field degrades to the "?" sentinel in board cells and to the "unassigned"
bucket in the workload grouping, but the blocked-items callout path
(lines 380-381) has no isinstance guard, so a truthy non-dict value raises
AttributeError there and aborts assembly of the metrics embed. -/
theorem C7_assignee_paths :
    assigneeName .absent = "?" ∧
    assigneeName .null = "?" ∧
    assigneeName (.other true) = "?" ∧
    assigneeName (.other false) = "?" ∧
    workloadUser .absent = "unassigned" ∧
    workloadUser (.other true) = "unassigned" ∧
    blockedAssignee .absent = .ok "?" ∧
    blockedAssignee .null = .ok "?" ∧
    blockedAssignee (.other false) = .ok "?" ∧
    blockedAssignee (.other true) = .error "AttributeError" ∧
    create_kanban_and_metrics_embed c7Stories []
        (organize_stories_by_status c7Stories) [] none []
      = .error "AttributeError" :=
  ⟨rfl, rfl, rfl, rfl, rfl, rfl, rfl, rfl, rfl, rfl, rfl⟩

end Standup
